import Mathlib

/-!
Verification of the 2D geometry / collision core of the raycaster repository
(`types2d.mjs`, `colliders2d.mjs`, `camera2d.mjs`).

JavaScript numbers are modelled as exact rationals extended with the IEEE
special values `+Infinity`, `-Infinity` and `NaN` (type `JSVal`); the
arithmetic, comparison, `Math.abs`, `Math.sign`, `Math.min`/`Math.max`
operations below follow the IEEE / ECMAScript rules on those values
(negative zero is not modelled: no theorem in this file depends on it).
`Math.sqrt` is not rational-valued, so every definition that uses it takes
the square-root function as an explicit parameter `rsqrt : ℚ → ℚ`; each
theorem constrains `rsqrt` only at arguments where its exact value is
forced (`rsqrt 0 = 0`), or instantiates it with a function that is exact at
every argument actually reached by the evaluation.
-/

set_option maxHeartbeats 1000000

set_option allowUnsafeReducibility true in
attribute [semireducible] Rat.add Rat.mul Rat.sub Rat.inv

/-- A JavaScript number: an exact rational, `+Infinity`, `-Infinity` or `NaN`. -/
inductive JSVal where
  | fin (q : ℚ)
  | pinf
  | ninf
  | nan
deriving DecidableEq, Repr

open JSVal

/-- IEEE negation. -/
def jneg : JSVal → JSVal
  | fin q => fin (-q)
  | pinf => ninf
  | ninf => pinf
  | nan => nan

/-- IEEE addition. -/
def jadd : JSVal → JSVal → JSVal
  | nan, _ => nan
  | _, nan => nan
  | fin a, fin b => fin (a + b)
  | fin _, pinf => pinf
  | pinf, fin _ => pinf
  | fin _, ninf => ninf
  | ninf, fin _ => ninf
  | pinf, pinf => pinf
  | ninf, ninf => ninf
  | pinf, ninf => nan
  | ninf, pinf => nan

/-- IEEE subtraction (addition of the negation). -/
def jsub (a b : JSVal) : JSVal := jadd a (jneg b)

/-- IEEE multiplication (`0 * ±Infinity = NaN`). -/
def jmul : JSVal → JSVal → JSVal
  | nan, _ => nan
  | _, nan => nan
  | fin a, fin b => fin (a * b)
  | fin a, pinf => if a = 0 then nan else if 0 < a then pinf else ninf
  | pinf, fin a => if a = 0 then nan else if 0 < a then pinf else ninf
  | fin a, ninf => if a = 0 then nan else if 0 < a then ninf else pinf
  | ninf, fin a => if a = 0 then nan else if 0 < a then ninf else pinf
  | pinf, pinf => pinf
  | ninf, ninf => pinf
  | pinf, ninf => ninf
  | ninf, pinf => ninf

/-- IEEE division (`x/0 = ±Infinity` for `x ≠ 0`, `0/0 = NaN`; the sign of a
zero divisor is not modelled, a rational `0` divides like `+0`). -/
def jdiv : JSVal → JSVal → JSVal
  | nan, _ => nan
  | _, nan => nan
  | fin a, fin b =>
      if b = 0 then (if a = 0 then nan else if 0 < a then pinf else ninf)
      else fin (a / b)
  | fin _, pinf => fin 0
  | fin _, ninf => fin 0
  | pinf, fin b => if 0 ≤ b then pinf else ninf
  | ninf, fin b => if 0 ≤ b then ninf else pinf
  | pinf, pinf => nan
  | pinf, ninf => nan
  | ninf, pinf => nan
  | ninf, ninf => nan

/-- `Math.abs`. -/
def jabs : JSVal → JSVal
  | fin q => fin |q|
  | pinf => pinf
  | ninf => pinf
  | nan => nan

/-- Sign of a rational as a rational (`-1`, `0` or `1`). -/
def qsign (q : ℚ) : ℚ := if q < 0 then -1 else if 0 < q then 1 else 0

/-- `Math.sign`. -/
def jsign : JSVal → JSVal
  | fin q => fin (qsign q)
  | pinf => fin 1
  | ninf => fin (-1)
  | nan => nan

/-- IEEE strict less-than (`NaN` compares false). -/
def jlt : JSVal → JSVal → Bool
  | nan, _ => false
  | _, nan => false
  | fin a, fin b => decide (a < b)
  | fin _, pinf => true
  | fin _, ninf => false
  | pinf, fin _ => false
  | ninf, fin _ => true
  | pinf, pinf => false
  | ninf, ninf => false
  | pinf, ninf => false
  | ninf, pinf => true

/-- IEEE less-or-equal (`NaN` compares false). -/
def jle : JSVal → JSVal → Bool
  | nan, _ => false
  | _, nan => false
  | fin a, fin b => decide (a ≤ b)
  | fin _, pinf => true
  | fin _, ninf => false
  | pinf, fin _ => false
  | ninf, fin _ => true
  | pinf, pinf => true
  | ninf, ninf => true
  | pinf, ninf => false
  | ninf, pinf => true

/-- `Math.min` (`NaN` poisons). -/
def jmin : JSVal → JSVal → JSVal
  | nan, _ => nan
  | _, nan => nan
  | a, b => if jle a b then a else b

/-- `Math.max` (`NaN` poisons). -/
def jmax : JSVal → JSVal → JSVal
  | nan, _ => nan
  | _, nan => nan
  | a, b => if jle a b then b else a

/-- `Math.clamp(val, min, max) = Math.max(min, Math.min(val, max))`
(defined on `Math` at the top of both `types2d.mjs` and `colliders2d.mjs`). -/
def jclamp (v : JSVal) (lo hi : ℚ) : JSVal := jmax (fin lo) (jmin v (fin hi))

/-- `Math.clamp` restricted to plain rationals. -/
def qclamp (v lo hi : ℚ) : ℚ := max lo (min v hi)

/-- Truncation toward zero, as used by the JavaScript `%` operator. -/
def qtrunc (q : ℚ) : ℤ := if 0 ≤ q then ⌊q⌋ else ⌈q⌉

/-- The JavaScript remainder `a % b` on finite numbers: `a - b * trunc(a / b)`. -/
def qmodJS (a b : ℚ) : ℚ := a - b * (qtrunc (a / b) : ℚ)

/-- `Math.sqrt` on a `JSVal`, given the square-root oracle for nonnegative
rationals (`Math.sqrt` of a negative number is `NaN`). -/
def jsqrtJ (rsqrt : ℚ → ℚ) : JSVal → JSVal
  | fin q => if q < 0 then nan else fin (rsqrt q)
  | pinf => pinf
  | ninf => nan
  | nan => nan

/-- `Point2D` (`types2d.mjs`): a mutable pair of numbers; modelled as a value. -/
structure Point2D where
  x : ℚ
  y : ℚ
deriving DecidableEq, Repr

/-- `Point2D.distanceTo2`: the squared distance between two points. -/
def Point2D.distanceTo2 (self point : Point2D) : ℚ :=
  let x := point.x - self.x
  let y := point.y - self.y
  x * x + y * y

/-- `Vector2D.magnitude` getter: `Math.sqrt(x*x + y*y)`. -/
def Vector2D.magnitude (rsqrt : ℚ → ℚ) (v : Point2D) : ℚ :=
  rsqrt (v.x * v.x + v.y * v.y)

/-- A hit descriptor as returned by the collider intersection methods:
`{delta, normal, pos}`, with a `time` field present only on the hits
produced by the vector / swept tests (absent fields are `none`). -/
structure Hit where
  delta : JSVal × JSVal
  normal : JSVal × JSVal
  pos : JSVal × JSVal
  time : Option JSVal := none
deriving DecidableEq, Repr

/-- `CircleCollider` (`colliders2d.mjs`): a centre point plus a radius. -/
structure CircleCollider where
  x : ℚ
  y : ℚ
  radius : ℚ
deriving DecidableEq, Repr

/-- The centre of a circle collider as a `Point2D`. -/
def CircleCollider.toPoint (c : CircleCollider) : Point2D := ⟨c.x, c.y⟩

/-- `CircleCollider.collision`: squared centre distance strictly below the
squared sum of the radii. -/
def CircleCollider.collision (self circle : CircleCollider) : Bool :=
  decide (Point2D.distanceTo2 self.toPoint circle.toPoint <
    (self.radius + circle.radius) * (self.radius + circle.radius))

/-- `CircleCollider.intersection(x, y, radius)`: the generalized static
circle test.  The arguments are `JSVal` because `boxIntersection` re-enters
this method with values computed from a previous hit. -/
def CircleCollider.intersection (rsqrt : ℚ → ℚ) (self : CircleCollider)
    (x y radius : JSVal) : Option Hit :=
  let dx := jsub (fin self.x) x
  let dy := jsub (fin self.y) y
  let dist2 := jadd (jmul dx dx) (jmul dy dy)
  let cR := jadd (fin self.radius) radius
  let r2 := jmul cR cR
  if jlt dist2 r2 then
    let dist := jsqrtJ rsqrt dist2
    let offset := jsub cR dist
    let nx := jdiv dx dist
    let ny := jdiv dy dist
    let vx := jmul nx offset
    let vy := jmul ny offset
    let px := jsub (fin self.x) (jmul nx (fin self.radius))
    let py := jsub (fin self.y) (jmul ny (fin self.radius))
    some { delta := (jneg vx, jneg vy), normal := (jneg nx, jneg ny), pos := (px, py) }
  else
    none

/-- `CircleCollider.circleIntersection`. -/
def CircleCollider.circleIntersection (rsqrt : ℚ → ℚ)
    (self circle : CircleCollider) : Option Hit :=
  CircleCollider.intersection rsqrt self (fin circle.x) (fin circle.y) (fin circle.radius)

/-- `CircleCollider.vectorIntersection(origin, vector, padding)`: ray vs
circle by the projected-closest-point method. -/
def CircleCollider.vectorIntersection (rsqrt : ℚ → ℚ) (self : CircleCollider)
    (origin vector : Point2D) (padding : ℚ) : Option Hit :=
  let vM : ℚ := Vector2D.magnitude rsqrt vector
  let vUx := jdiv (fin vector.x) (fin vM)
  let vUy := jdiv (fin vector.y) (fin vM)
  let t := jadd (jmul vUx (fin (self.x - origin.x))) (jmul vUy (fin (self.y - origin.y)))
  let ex := jadd (jmul t vUx) (fin origin.x)
  let ey := jadd (jmul t vUy) (fin origin.y)
  let eM2 := jadd (jmul (jsub ex (fin self.x)) (jsub ex (fin self.x)))
      (jmul (jsub ey (fin self.y)) (jsub ey (fin self.y)))
  let r2 : ℚ := (self.radius + padding) * (self.radius + padding)
  if jlt eM2 (fin r2) then
    let dt := jsqrtJ rsqrt (jsub (fin r2) eM2)
    let fx := jadd (jmul (jsub t dt) vUx) (fin origin.x)
    let fy := jadd (jmul (jsub t dt) vUy) (fin origin.y)
    let p2x : ℚ := (origin.x + vector.x) - self.x
    let p2y : ℚ := (origin.y + vector.y) - self.y
    if p2x * p2x + p2y * p2y > r2 then none
    else
      let nx := jdiv (jsub fx (fin self.x)) (fin (self.radius + padding))
      let ny := jdiv (jsub fy (fin self.y)) (fin (self.radius + padding))
      some { delta := (jsub fx (fin origin.x), jsub fy (fin origin.y)),
             normal := (nx, ny), pos := (fx, fy) }
  else
    none

/-- `CircleCollider.sweptCircleIntersection(circle, vector)`: delegates to
`vectorIntersection` with the moving circle's centre as origin and its
radius as padding, then retracts `pos` along the normal. -/
def CircleCollider.sweptCircleIntersection (rsqrt : ℚ → ℚ)
    (self circle : CircleCollider) (vector : Point2D) : Option Hit :=
  match CircleCollider.vectorIntersection rsqrt self circle.toPoint vector circle.radius with
  | none => none
  | some hit =>
      some { hit with pos := (jsub hit.pos.1 (jmul hit.normal.1 (fin circle.radius)),
                              jsub hit.pos.2 (jmul hit.normal.2 (fin circle.radius))) }

/-- `AABBCollider` (`colliders2d.mjs`): a centre point plus half-extents. -/
structure AABBCollider where
  x : ℚ
  y : ℚ
  rX : ℚ
  rY : ℚ
deriving DecidableEq, Repr

/-- `AABBCollider.intersection(x, y, rX, rY)`: the minimum-translation
box-vs-box test.  The arguments are `JSVal` because `sweptBoxIntersection`
calls this method with a single (object) argument, so that the remaining
parameters are `undefined` and every arithmetic use of them is `NaN`. -/
def AABBCollider.intersection (self : AABBCollider) (x y rX rY : JSVal) : Option Hit :=
  let dX := jsub x (fin self.x)
  let pX := jsub (jadd rX (fin self.rX)) (jabs dX)
  if jle pX (fin 0) then none
  else
    let dY := jsub y (fin self.y)
    let pY := jsub (jadd rY (fin self.rY)) (jabs dY)
    if jle pY (fin 0) then none
    else
      if jle pX pY then
        let sX := jsign dX
        some { delta := (jmul pX sX, fin 0), normal := (sX, fin 0),
               pos := (jadd (fin self.x) (jmul (fin self.rX) sX), y) }
      else
        let sY := jsign dY
        some { delta := (fin 0, jmul pY sY), normal := (fin 0, sY),
               pos := (x, jadd (fin self.y) (jmul (fin self.rY) sY)) }

/-- `AABBCollider.boxIntersection(box)`. -/
def AABBCollider.boxIntersection (self box : AABBCollider) : Option Hit :=
  AABBCollider.intersection self (fin box.x) (fin box.y) (fin box.rX) (fin box.rY)

/-- `scaleX = 1.0 / vector.x` in `AABBCollider.vectorIntersection`. -/
def AABBCollider.vscaleX (v : Point2D) : JSVal := jdiv (fin 1) (fin v.x)

/-- `scaleY = 1.0 / vector.y`. -/
def AABBCollider.vscaleY (v : Point2D) : JSVal := jdiv (fin 1) (fin v.y)

/-- `signX = Math.sign(scaleX)`. -/
def AABBCollider.vsignX (v : Point2D) : JSVal := jsign (AABBCollider.vscaleX v)

/-- `signY = Math.sign(scaleY)`. -/
def AABBCollider.vsignY (v : Point2D) : JSVal := jsign (AABBCollider.vscaleY v)

/-- `nearTimeX = (this._x - signX * (this._rX + pX) - origin.x) * scaleX`. -/
def AABBCollider.nearTimeX (self : AABBCollider) (o v : Point2D) (pX : ℚ) : JSVal :=
  jmul (jsub (jsub (fin self.x) (jmul (AABBCollider.vsignX v) (fin (self.rX + pX))))
    (fin o.x)) (AABBCollider.vscaleX v)

/-- `nearTimeY = (this._y - signY * (this._rY + pY) - origin.y) * scaleY`. -/
def AABBCollider.nearTimeY (self : AABBCollider) (o v : Point2D) (pY : ℚ) : JSVal :=
  jmul (jsub (jsub (fin self.y) (jmul (AABBCollider.vsignY v) (fin (self.rY + pY))))
    (fin o.y)) (AABBCollider.vscaleY v)

/-- `farTimeX = (this._x + signX * (this._rX + pX) - origin.x) * scaleX`. -/
def AABBCollider.farTimeX (self : AABBCollider) (o v : Point2D) (pX : ℚ) : JSVal :=
  jmul (jsub (jadd (fin self.x) (jmul (AABBCollider.vsignX v) (fin (self.rX + pX))))
    (fin o.x)) (AABBCollider.vscaleX v)

/-- `farTimeY = (this._y + signY * (this._rY + pY) - origin.y) * scaleY`. -/
def AABBCollider.farTimeY (self : AABBCollider) (o v : Point2D) (pY : ℚ) : JSVal :=
  jmul (jsub (jadd (fin self.y) (jmul (AABBCollider.vsignY v) (fin (self.rY + pY))))
    (fin o.y)) (AABBCollider.vscaleY v)

/-- `nearTime = nearTimeX > nearTimeY ? nearTimeX : nearTimeY`. -/
def AABBCollider.nearTime (self : AABBCollider) (o v : Point2D) (pX pY : ℚ) : JSVal :=
  if jlt (AABBCollider.nearTimeY self o v pY) (AABBCollider.nearTimeX self o v pX)
  then AABBCollider.nearTimeX self o v pX else AABBCollider.nearTimeY self o v pY

/-- `farTime = farTimeX < farTimeY ? farTimeX : farTimeY` (the `min`
combinator of the collider implementation). -/
def AABBCollider.farTime (self : AABBCollider) (o v : Point2D) (pX pY : ℚ) : JSVal :=
  if jlt (AABBCollider.farTimeX self o v pX) (AABBCollider.farTimeY self o v pY)
  then AABBCollider.farTimeX self o v pX else AABBCollider.farTimeY self o v pY

/-- `AABBCollider.vectorIntersection(origin, vector, pX, pY)`: the slab
method for segment vs box. -/
def AABBCollider.vectorIntersection (self : AABBCollider) (o v : Point2D)
    (pX pY : ℚ) : Option Hit :=
  if jlt (AABBCollider.farTimeY self o v pY) (AABBCollider.nearTimeX self o v pX) ||
     jlt (AABBCollider.farTimeX self o v pX) (AABBCollider.nearTimeY self o v pY) then
    none
  else if jle (fin 1) (AABBCollider.nearTime self o v pX pY) ||
          jle (AABBCollider.farTime self o v pX pY) (fin 0) then
    none
  else
    let time := jclamp (AABBCollider.nearTime self o v pX pY) 0 1
    let normal : JSVal × JSVal :=
      if jlt (AABBCollider.nearTimeY self o v pY) (AABBCollider.nearTimeX self o v pX)
      then (jneg (AABBCollider.vsignX v), fin 0)
      else (fin 0, jneg (AABBCollider.vsignY v))
    some { delta := (jmul (jsub (fin 1) time) (fin (-v.x)),
                     jmul (jsub (fin 1) time) (fin (-v.y))),
           normal := normal,
           pos := (jadd (fin o.x) (jmul (fin v.x) time),
                   jadd (fin o.y) (jmul (fin v.y) time)),
           time := some time }

/-- `AABBCollider.sweptBoxIntersection(box, vector)`.  When the vector is
exactly zero the source executes `this.intersection(box)`: the box object is
passed as the `x` parameter (it coerces to `NaN` in every arithmetic use and
is also stored verbatim in the returned `pos.x`, modelled here as `nan`),
and `y`, `rX`, `rY` are `undefined`, i.e. `NaN`. -/
def AABBCollider.sweptBoxIntersection (self box : AABBCollider)
    (vector : Point2D) : Option Hit :=
  if vector.x = 0 ∧ vector.y = 0 then
    AABBCollider.intersection self nan nan nan nan
  else
    match AABBCollider.vectorIntersection self ⟨box.x, box.y⟩ vector box.rX box.rY with
    | none => none
    | some hit =>
        some { hit with delta := (jadd hit.delta.1 (fin vector.x),
                                  jadd hit.delta.2 (fin vector.y)) }

/-- `CircleCollider.boxIntersection(box)`: closest-point clamping, with the
special branch for a circle centre inside the box.  The two `none` fallbacks
on the inner calls are unreachable (the penetrations there are at least 1,
and the centre is strictly inside the re-tested circle); in JavaScript a
`null` there would throw on the following property access. -/
def CircleCollider.boxIntersection (rsqrt : ℚ → ℚ) (self : CircleCollider)
    (box : AABBCollider) : Option Hit :=
  let rx := box.rX
  let ry := box.rY
  let dx := self.x - box.x
  let dy := self.y - box.y
  let cx := qclamp dx (-rx) rx
  let cy := qclamp dy (-ry) ry
  let cPx := box.x + cx
  let cPy := box.y + cy
  if cPx = self.x ∧ cPy = self.y then
    let bw := rx * 2
    let bh := ry * 2
    match AABBCollider.intersection box (fin cPx) (fin cPy) (fin 1) (fin 1) with
    | none => none
    | some hit0 =>
        let cPx2 := jsub hit0.pos.1 (jmul (fin bw) hit0.normal.1)
        let cPy2 := jsub hit0.pos.2 (jmul (fin bh) hit0.normal.2)
        match CircleCollider.intersection rsqrt self cPx2 cPy2 (fin 0) with
        | none => none
        | some hit =>
            some { hit with delta := (jadd hit.delta.1 (jmul (fin bw) hit.normal.1),
                                      jadd hit.delta.2 (jmul (fin bh) hit.normal.2)) }
  else
    CircleCollider.intersection rsqrt self (fin cPx) (fin cPy) (fin 0)

/-- `BoundingBox` (`types2d.mjs`): the older box type with its own slab test. -/
structure BoundingBox where
  x : ℚ
  y : ℚ
  rX : ℚ
  rY : ℚ
deriving DecidableEq, Repr

/-- `BoundingBox.vectorIntersection(origin, vector, pX, pY)`: identical to
the collider version except that the overall far time is
`farTimeX > farTimeY ? farTimeX : farTimeY`, i.e. the `max` combinator. -/
def BoundingBox.vectorIntersection (self : BoundingBox) (o v : Point2D)
    (pX pY : ℚ) : Option Hit :=
  let scaleX := jdiv (fin 1) (fin v.x)
  let scaleY := jdiv (fin 1) (fin v.y)
  let signX := jsign scaleX
  let signY := jsign scaleY
  let nearTimeX := jmul (jsub (jsub (fin self.x) (jmul signX (fin (self.rX + pX)))) (fin o.x)) scaleX
  let nearTimeY := jmul (jsub (jsub (fin self.y) (jmul signY (fin (self.rY + pY)))) (fin o.y)) scaleY
  let farTimeX := jmul (jsub (jadd (fin self.x) (jmul signX (fin (self.rX + pX)))) (fin o.x)) scaleX
  let farTimeY := jmul (jsub (jadd (fin self.y) (jmul signY (fin (self.rY + pY)))) (fin o.y)) scaleY
  if jlt farTimeY nearTimeX || jlt farTimeX nearTimeY then
    none
  else
    let nearTime := if jlt nearTimeY nearTimeX then nearTimeX else nearTimeY
    let farTime := if jlt farTimeY farTimeX then farTimeX else farTimeY
    if jle (fin 1) nearTime || jle farTime (fin 0) then
      none
    else
      let time := jclamp nearTime 0 1
      let normal : JSVal × JSVal :=
        if jlt nearTimeY nearTimeX then (jneg signX, fin 0) else (fin 0, jneg signY)
      some { delta := (jmul (jsub (fin 1) time) (fin (-v.x)),
                       jmul (jsub (fin 1) time) (fin (-v.y))),
             normal := normal,
             pos := (jadd (fin o.x) (jmul (fin v.x) time),
                     jadd (fin o.y) (jmul (fin v.y) time)),
             time := some time }

/-- `Tile2D` (`tilemap2d.mjs`): surface type, the `blocking` boolean and the
`opaque` boolean (the latter named `opaqueB` here because its source name is
a reserved word). -/
structure Tile where
  type : ℤ
  blocking : Bool
  opaqueB : Bool
deriving DecidableEq, Repr

/-- The grid axis on which a ray hit crossed a cell boundary. -/
inductive Axis where
  | x
  | y
deriving DecidableEq, Repr

/-- The hit descriptor returned by `Ray2D.cast`:
`{tile, offset, axis, distance}`. -/
structure RayHit where
  tile : Tile
  offset : JSVal
  axis : Axis
  distance : JSVal
deriving DecidableEq, Repr

/-- `Ray2D` state: an origin point and a direction vector. -/
structure Ray2D where
  origin : Point2D
  vector : Point2D
deriving DecidableEq, Repr

/-- The `Ray2D` constructor: both `_origin` and `_vector` are built from
`origin.x, origin.y`; the `vector` argument is never read. -/
def Ray2D.construct (origin _vector : Point2D) : Ray2D :=
  ⟨⟨origin.x, origin.y⟩, ⟨origin.x, origin.y⟩⟩

/-- `calcDistance(pos, origin, step, vector) = (pos - origin + (1 - step) / 2) / vector`. -/
def calcDistance (pos : ℤ) (origin : ℚ) (step : ℤ) (vector : ℚ) : JSVal :=
  jdiv (fin ((pos : ℚ) - origin + (1 - (step : ℚ)) / 2)) (fin vector)

/-- `calcOffset(pos, origin, distance, vector) = (pos + (origin % 1)) + distance * vector`. -/
def calcOffset (pos : ℤ) (origin : ℚ) (distance : JSVal) (vector : ℚ) : JSVal :=
  jadd (fin ((pos : ℚ) + qmodJS origin 1)) (jmul distance (fin vector))

/-- The DDA loop of `Ray2D.cast`, one invocation per remaining step.  The
step distance of the advanced axis is increased and the map position
advanced before the tile of the new cell is queried. -/
def castLoop (map : ℤ → ℤ → Tile) (originX originY vectorX vectorY : ℚ)
    (rayDeltaX rayDeltaY : JSVal) (rayStepX rayStepY : ℤ) :
    ℕ → ℤ → ℤ → JSVal → JSVal → Option RayHit
  | 0, _, _, _, _ => none
  | n + 1, mapPosX, mapPosY, stepDistX, stepDistY =>
    if jlt stepDistX stepDistY then
      let stepDistX := jadd stepDistX rayDeltaX
      let mapPosX := mapPosX + rayStepX
      let tile := map mapPosX mapPosY
      if tile.blocking then
        let distance := calcDistance mapPosX originX rayStepX vectorX
        some ⟨tile, calcOffset mapPosY originY distance vectorY, Axis.x, distance⟩
      else
        castLoop map originX originY vectorX vectorY rayDeltaX rayDeltaY rayStepX rayStepY
          n mapPosX mapPosY stepDistX stepDistY
    else
      let stepDistY := jadd stepDistY rayDeltaY
      let mapPosY := mapPosY + rayStepY
      let tile := map mapPosX mapPosY
      if tile.blocking then
        let distance := calcDistance mapPosY originY rayStepY vectorY
        some ⟨tile, calcOffset mapPosX originX distance vectorX, Axis.y, distance⟩
      else
        castLoop map originX originY vectorX vectorY rayDeltaX rayDeltaY rayStepX rayStepY
          n mapPosX mapPosY stepDistX stepDistY

/-- `Ray2D.cast(map, range)`: DDA traversal; `none` models the `-1` no-hit
sentinel returned after `range` steps. -/
def Ray2D.cast (ray : Ray2D) (map : ℤ → ℤ → Tile) (range : ℕ) : Option RayHit :=
  let originX := ray.origin.x
  let originY := ray.origin.y
  let vectorX := ray.vector.x
  let vectorY := ray.vector.y
  let rayDeltaX := jabs (jdiv (fin 1) (fin vectorX))
  let rayDeltaY := jabs (jdiv (fin 1) (fin vectorY))
  let mapPosX : ℤ := ⌊originX⌋
  let mapPosY : ℤ := ⌊originY⌋
  let sx : ℤ × JSVal :=
    if vectorX < 0 then (-1, jmul (fin (originX - (mapPosX : ℚ))) rayDeltaX)
    else (1, jmul (fin ((mapPosX : ℚ) + 1 - originX)) rayDeltaX)
  let sy : ℤ × JSVal :=
    if vectorY < 0 then (-1, jmul (fin (originY - (mapPosY : ℚ))) rayDeltaY)
    else (1, jmul (fin ((mapPosY : ℚ) + 1 - originY)) rayDeltaY)
  castLoop map originX originY vectorX vectorY rayDeltaX rayDeltaY sx.1 sy.1
    range mapPosX mapPosY sx.2 sy.2

/-- `RayCamera2D` state: position, direction, column count (the scene
buffer length), field of view and range. -/
structure RayCamera2D where
  position : Point2D
  direction : Point2D
  columns : ℕ
  fov : ℚ
  range : ℕ
deriving DecidableEq, Repr

/-- The per-column ray direction computed inside `RayCamera2D.rayCast`:
`offset = ((column << 1) / (columns - 1) - 1) * (fov / 2)`, then
`vector.x = dirX - offset * dirY` and `vector.y = dirY - offset * -dirX`. -/
def RayCamera2D.rayVector (cam : RayCamera2D) (column : ℕ) : JSVal × JSVal :=
  let halfFOV : ℚ := cam.fov / 2
  let dirX := cam.direction.x
  let dirY := cam.direction.y
  let offset := jmul (jsub (jdiv (fin (2 * (column : ℚ))) (fin ((cam.columns : ℚ) - 1)))
    (fin 1)) (fin halfFOV)
  (jsub (fin dirX) (jmul offset (fin dirY)),
   jsub (fin dirY) (jmul offset (fin (-dirX))))

/-- Penetration of box `b` into box `a` along the x axis (the quantity `pX`
computed by `AABBCollider.intersection` on a box-vs-box call). -/
def penX (a b : AABBCollider) : ℚ := (b.rX + a.rX) - |b.x - a.x|

/-- Penetration along the y axis (the quantity `pY`). -/
def penY (a b : AABBCollider) : ℚ := (b.rY + a.rY) - |b.y - a.y|

/-- Translate a box along the x axis. -/
def moveX (b : AABBCollider) (d : ℚ) : AABBCollider := { b with x := b.x + d }

/-- Translate a box along the y axis. -/
def moveY (b : AABBCollider) (d : ℚ) : AABBCollider := { b with y := b.y + d }

/-- A map with no blocking tiles anywhere. -/
def emptyMap : ℤ → ℤ → Tile := fun _ _ => ⟨0, false, false⟩

/-- A map whose only blocking cell is at grid `(3, 0)`. -/
def singleWallMap : ℤ → ℤ → Tile := fun gx gy =>
  if gx = 3 ∧ gy = 0 then ⟨1, true, false⟩ else ⟨0, false, false⟩

/-- A square-root function that is exact at every argument reached by the
concrete evaluations in this file: `0 ↦ 0` and `1/4 ↦ 1/2`. -/
def sqrtOracle : ℚ → ℚ := fun q => if q = 1 / 4 then 1 / 2 else 0

/-- `jneg` on finite values. -/
@[simp] theorem jneg_fin (a : ℚ) : jneg (fin a) = fin (-a) := rfl

/-- `jneg` on `NaN`. -/
@[simp] theorem jneg_nan : jneg nan = nan := rfl

/-- `jadd` on finite values. -/
@[simp] theorem jadd_fin (a b : ℚ) : jadd (fin a) (fin b) = fin (a + b) := rfl

/-- `jadd` with `NaN` on the left. -/
@[simp] theorem jadd_nan_left (a : JSVal) : jadd nan a = nan := by cases a <;> rfl

/-- `jadd` with `NaN` on the right. -/
@[simp] theorem jadd_nan_right (a : JSVal) : jadd a nan = nan := by cases a <;> rfl

/-- `jsub` on finite values. -/
@[simp] theorem jsub_fin (a b : ℚ) : jsub (fin a) (fin b) = fin (a - b) := by
  show fin (a + -b) = fin (a - b)
  rw [← sub_eq_add_neg]

/-- `jsub` with `NaN` on the left. -/
@[simp] theorem jsub_nan_left (a : JSVal) : jsub nan a = nan := by cases a <;> rfl

/-- `jsub` with `NaN` on the right. -/
@[simp] theorem jsub_nan_right (a : JSVal) : jsub a nan = nan := by cases a <;> rfl

/-- `jmul` on finite values. -/
@[simp] theorem jmul_fin (a b : ℚ) : jmul (fin a) (fin b) = fin (a * b) := rfl

/-- `jmul` with `NaN` on the left. -/
@[simp] theorem jmul_nan_left (a : JSVal) : jmul nan a = nan := by cases a <;> rfl

/-- `jmul` with `NaN` on the right. -/
@[simp] theorem jmul_nan_right (a : JSVal) : jmul a nan = nan := by cases a <;> rfl

/-- `jdiv` with `NaN` on the left. -/
@[simp] theorem jdiv_nan_left (a : JSVal) : jdiv nan a = nan := by cases a <;> rfl

/-- `jdiv` with `NaN` on the right. -/
@[simp] theorem jdiv_nan_right (a : JSVal) : jdiv a nan = nan := by cases a <;> rfl

/-- `0 / 0` is `NaN`. -/
@[simp] theorem jdiv_zero_zero : jdiv (fin 0) (fin 0) = nan := by
  show (if (0:ℚ) = 0 then (if (0:ℚ) = 0 then nan else if (0:ℚ) < 0 then pinf else ninf)
    else fin (0 / 0)) = nan
  simp

/-- `jabs` on finite values. -/
@[simp] theorem jabs_fin (a : ℚ) : jabs (fin a) = fin |a| := rfl

/-- `jsign` on finite values. -/
@[simp] theorem jsign_fin (a : ℚ) : jsign (fin a) = fin (qsign a) := rfl

/-- `jsign` on `NaN`. -/
@[simp] theorem jsign_nan : jsign nan = nan := rfl

/-- `jlt` on finite values. -/
@[simp] theorem jlt_fin (a b : ℚ) : jlt (fin a) (fin b) = decide (a < b) := rfl

/-- `jlt` with `NaN` on the left. -/
@[simp] theorem jlt_nan_left (a : JSVal) : jlt nan a = false := by cases a <;> rfl

/-- `jlt` with `NaN` on the right. -/
@[simp] theorem jlt_nan_right (a : JSVal) : jlt a nan = false := by cases a <;> rfl

/-- `jle` on finite values. -/
@[simp] theorem jle_fin (a b : ℚ) : jle (fin a) (fin b) = decide (a ≤ b) := rfl

/-- `jle` with `NaN` on the left. -/
@[simp] theorem jle_nan_left (a : JSVal) : jle nan a = false := by cases a <;> rfl

/-- `jle` with `NaN` on the right. -/
@[simp] theorem jle_nan_right (a : JSVal) : jle a nan = false := by cases a <;> rfl

/-- C10: a newly constructed `Ray2D` has both components of its direction
vector equal to the origin's coordinates, independent of the `vector`
argument passed to the constructor; the vector argument is ignored. -/
theorem ray2d_constructor_ignores_vector (o v w : Point2D) :
    (Ray2D.construct o v).vector = ⟨o.x, o.y⟩ ∧
    Ray2D.construct o v = Ray2D.construct o w :=
  ⟨rfl, rfl⟩

/-- C9: the two slab-method implementations disagree: at box `(0,0)` with
half-extents `(1,1)`, origin `(2,0)`, vector `(1,1)` and no padding, the
`BoundingBox` version (far time combined with `max`) returns a hit while
the `AABBCollider` version (far time combined with `min`) returns `null`. -/
theorem slab_far_time_combinators_differ :
    BoundingBox.vectorIntersection ⟨0, 0, 1, 1⟩ ⟨2, 0⟩ ⟨1, 1⟩ 0 0 =
      some ⟨(fin (-1), fin (-1)), (fin 0, fin (-1)), (fin 2, fin 0), some (fin 0)⟩ ∧
    AABBCollider.vectorIntersection ⟨0, 0, 1, 1⟩ ⟨2, 0⟩ ⟨1, 1⟩ 0 0 = none ∧
    BoundingBox.vectorIntersection ⟨0, 0, 1, 1⟩ ⟨2, 0⟩ ⟨1, 1⟩ 0 0 ≠
      AABBCollider.vectorIntersection ⟨0, 0, 1, 1⟩ ⟨2, 0⟩ ⟨1, 1⟩ 0 0 := by
  refine ⟨by decide, by decide, by decide⟩

/-- C2 (amended): for a camera with exactly one column the per-column
angular offset is `(0 << 1) / (1 - 1) - 1 = NaN`, so the single cast ray's
direction components are both `NaN` — not the camera heading — for every
position, heading, field of view and range. -/
theorem raycamera_single_column_nan (p d : Point2D) (fov : ℚ) (range : ℕ) :
    RayCamera2D.rayVector ⟨p, d, 1, fov, range⟩ 0 = (nan, nan) := by
  norm_num [RayCamera2D.rayVector]

/-- C2 (counterexample): with heading `(1,0)` and field of view `1`, the
single column of a one-column camera is cast with direction `(NaN, NaN)`,
which differs from the heading, refuting the claimed zero-offset cast. -/
theorem raycamera_single_column_not_heading :
    RayCamera2D.rayVector ⟨⟨0, 0⟩, ⟨1, 0⟩, 1, 1, 15⟩ 0 ≠ (fin 1, fin 0) := by decide

/-- C3: at the zero movement vector, `sweptBoxIntersection` executes
`this.intersection(box)` — the box object is passed as the `x` parameter
and the remaining parameters are `undefined` — producing a `NaN`-laden hit
object (never `null`), while the static box-vs-box test between the same
two disjoint boxes returns `null`.  This is evaluated at box A centred
`(0,0)`, box B centred `(10,10)`, both with half-extents `(1,1)`. -/
theorem swept_box_zero_vector_bug :
    AABBCollider.sweptBoxIntersection ⟨0, 0, 1, 1⟩ ⟨10, 10, 1, 1⟩ ⟨0, 0⟩ =
      some ⟨(fin 0, nan), (fin 0, nan), (nan, nan), none⟩ ∧
    AABBCollider.boxIntersection ⟨0, 0, 1, 1⟩ ⟨10, 10, 1, 1⟩ = none := by
  refine ⟨by decide, by decide⟩

/-- C5: for the circle of radius 1 centred exactly on the centre of the box
with half-extents `(1,1)`, `CircleCollider.boxIntersection` returns a hit
whose `delta` (and `normal` and `pos`) is `NaN` in both components:
`Math.sign(0) = 0` makes the push-to-boundary a no-op, and the following
point test divides by a zero distance. -/
theorem circle_box_concentric_nan_delta :
    CircleCollider.boxIntersection sqrtOracle ⟨0, 0, 1⟩ ⟨0, 0, 1, 1⟩ =
      some ⟨(nan, nan), (nan, nan), (nan, nan), none⟩ := by decide

/-- C4 (counterexample): circles centred `(0,0)` and `(1/2,0)`, both of
radius 1, overlap, so the static test returns a hit; the swept test with
the zero vector returns `null` (the zero-magnitude normalization makes the
unit vector `NaN`, and the `NaN` distance comparison fails), so the two do
not return identical `pos`/`normal`. -/
theorem swept_circle_zero_vector_ce :
    CircleCollider.sweptCircleIntersection sqrtOracle ⟨0, 0, 1⟩ ⟨1/2, 0, 1⟩ ⟨0, 0⟩ = none ∧
    CircleCollider.circleIntersection sqrtOracle ⟨0, 0, 1⟩ ⟨1/2, 0, 1⟩ ≠ none := by
  refine ⟨by decide, by decide⟩

/-- C4 (amended): for every pair of circle colliders and any square-root
function (constrained only by its forced value `rsqrt 0 = 0`), the swept
circle test with movement vector exactly `(0,0)` returns `null`; therefore
it agrees with the static circle-circle test exactly when the static test
reports no collision, and differs whenever the circles overlap. -/
theorem swept_circle_zero_vector_null (rsqrt : ℚ → ℚ) (h0 : rsqrt 0 = 0)
    (A B : CircleCollider) :
    CircleCollider.sweptCircleIntersection rsqrt A B ⟨0, 0⟩ = none ∧
    (CircleCollider.circleIntersection rsqrt A B = none →
      CircleCollider.sweptCircleIntersection rsqrt A B ⟨0, 0⟩ =
        CircleCollider.circleIntersection rsqrt A B) := by
  have hv : CircleCollider.vectorIntersection rsqrt A B.toPoint ⟨0, 0⟩ B.radius = none := by
    unfold CircleCollider.vectorIntersection Vector2D.magnitude
    norm_num [h0]
  have hs : CircleCollider.sweptCircleIntersection rsqrt A B ⟨0, 0⟩ = none := by
    unfold CircleCollider.sweptCircleIntersection
    rw [hv]
  exact ⟨hs, fun h => by rw [hs, h]⟩

/-- C4 (witness): the amended theorem applied at two concrete disjoint
circles and the concrete square-root function. -/
theorem swept_circle_zero_vector_null_witness :
    CircleCollider.sweptCircleIntersection sqrtOracle ⟨0, 0, 1⟩ ⟨5, 5, 1⟩ ⟨0, 0⟩ = none :=
  (swept_circle_zero_vector_null sqrtOracle (by decide) ⟨0, 0, 1⟩ ⟨5, 5, 1⟩).1

/-- C7: `AABBCollider.vectorIntersection` returns `null` whenever the
computed overall entry time is at least 1 or the computed overall exit time
is at most 0, i.e. whenever the parametric intersection interval does not
overlap `[0,1]` of the requested vector. -/
theorem aabb_vector_intersection_reject (b : AABBCollider) (o v : Point2D) (pX pY : ℚ)
    (h : jle (fin 1) (AABBCollider.nearTime b o v pX pY) = true ∨
         jle (AABBCollider.farTime b o v pX pY) (fin 0) = true) :
    AABBCollider.vectorIntersection b o v pX pY = none := by
  unfold AABBCollider.vectorIntersection
  split_ifs with h1 h2
  · rfl
  · rfl
  · exfalso
    rcases h with h | h <;> simp [h] at h2

/-- C7 (witness): a segment from `(-5,0)` along `(1, 1/100)` stops short of
the box centred `(0,0)` with half-extents `(1,1)`: the entry time is 4 ≥ 1,
the slab interval is nonempty (`nearTime ≤ farTime`, so the infinite-line
slab test would intersect), and the result is `null`. -/
theorem aabb_vector_intersection_reject_witness :
    jle (fin 1) (AABBCollider.nearTime ⟨0, 0, 1, 1⟩ ⟨-5, 0⟩ ⟨1, 1/100⟩ 0 0) = true ∧
    jle (AABBCollider.nearTime ⟨0, 0, 1, 1⟩ ⟨-5, 0⟩ ⟨1, 1/100⟩ 0 0)
        (AABBCollider.farTime ⟨0, 0, 1, 1⟩ ⟨-5, 0⟩ ⟨1, 1/100⟩ 0 0) = true ∧
    AABBCollider.vectorIntersection ⟨0, 0, 1, 1⟩ ⟨-5, 0⟩ ⟨1, 1/100⟩ 0 0 = none :=
  ⟨by decide, by decide,
    aabb_vector_intersection_reject ⟨0, 0, 1, 1⟩ ⟨-5, 0⟩ ⟨1, 1/100⟩ 0 0 (Or.inl (by decide))⟩

/-- The DDA loop never returns a hit over a map with no blocking tiles. -/
theorem castLoop_no_block (map : ℤ → ℤ → Tile)
    (hm : ∀ gx gy, (map gx gy).blocking = false)
    (oX oY vX vY : ℚ) (rdX rdY : JSVal) (rsX rsY : ℤ) :
    ∀ (n : ℕ) (mX mY : ℤ) (sdX sdY : JSVal),
      castLoop map oX oY vX vY rdX rdY rsX rsY n mX mY sdX sdY = none := by
  intro n
  induction n with
  | zero => intro mX mY sdX sdY; rfl
  | succ k ih =>
      intro mX mY sdX sdY
      simp [castLoop, hm, ih]

/-- C1: over any map with no blocking tile, `Ray2D.cast` with range 15
returns the no-hit sentinel (for every origin and direction); and over the
map whose only blocking cell is `(3,0)`, the ray with origin `(0.5,0.5)`
and direction `(1,0)` returns a hit carrying that cell's tile, axis `x` and
distance `2.5` (the offset is `0.5`). -/
theorem ray2d_cast_empty_and_wall (map : ℤ → ℤ → Tile)
    (hm : ∀ gx gy, (map gx gy).blocking = false) (o v : Point2D) :
    Ray2D.cast ⟨o, v⟩ map 15 = none ∧
    Ray2D.cast ⟨⟨1/2, 1/2⟩, ⟨1, 0⟩⟩ singleWallMap 15 =
      some ⟨singleWallMap 3 0, fin (1/2), Axis.x, fin (5/2)⟩ ∧
    (singleWallMap 3 0).blocking = true := by
  refine ⟨?_, by decide, by decide⟩
  unfold Ray2D.cast
  apply castLoop_no_block map hm

/-- C1 (witness): the theorem applied to the everywhere-open map with a
concrete origin and direction. -/
theorem ray2d_cast_empty_and_wall_witness :
    Ray2D.cast ⟨⟨0, 0⟩, ⟨1, 1⟩⟩ emptyMap 15 = none ∧
    Ray2D.cast ⟨⟨1/2, 1/2⟩, ⟨1, 0⟩⟩ singleWallMap 15 =
      some ⟨singleWallMap 3 0, fin (1/2), Axis.x, fin (5/2)⟩ ∧
    (singleWallMap 3 0).blocking = true :=
  ray2d_cast_empty_and_wall emptyMap (fun _ _ => rfl) ⟨0, 0⟩ ⟨1, 1⟩

/-- C8: `CircleCollider.collision` is true exactly when the euclidean
distance between the centres is strictly below the sum of the radii (radii
nonnegative, per the data model); the squared-distance comparison in the
source matches this definition exactly. -/
theorem circle_collision_iff_distance (A B : CircleCollider)
    (hA : 0 ≤ A.radius) (hB : 0 ≤ B.radius) :
    CircleCollider.collision A B = true ↔
      Real.sqrt ((Point2D.distanceTo2 A.toPoint B.toPoint : ℚ) : ℝ) <
        (A.radius : ℝ) + (B.radius : ℝ) := by
  have hd2 : (0 : ℚ) ≤ Point2D.distanceTo2 A.toPoint B.toPoint := by
    simp only [Point2D.distanceTo2]
    nlinarith [mul_self_nonneg (B.toPoint.x - A.toPoint.x),
      mul_self_nonneg (B.toPoint.y - A.toPoint.y)]
  have hs : (0 : ℝ) ≤ (A.radius : ℝ) + (B.radius : ℝ) := by
    have h := add_nonneg hA hB
    exact_mod_cast h
  have hsq : ((A.radius : ℝ) + (B.radius : ℝ)) ^ 2 =
      (((A.radius + B.radius) * (A.radius + B.radius) : ℚ) : ℝ) := by
    push_cast
    ring
  rw [CircleCollider.collision, decide_eq_true_iff,
    Real.sqrt_lt (by exact_mod_cast hd2) hs, hsq, Rat.cast_lt]

/-- C8 (witness): the equivalence instantiated at two concrete unit
circles with centres at distance 1. -/
theorem circle_collision_iff_distance_witness :
    CircleCollider.collision ⟨0, 0, 1⟩ ⟨1, 0, 1⟩ = true ↔
      Real.sqrt ((Point2D.distanceTo2 (CircleCollider.toPoint ⟨0, 0, 1⟩)
          (CircleCollider.toPoint ⟨1, 0, 1⟩) : ℚ) : ℝ) <
        ((1 : ℚ) : ℝ) + ((1 : ℚ) : ℝ) :=
  circle_collision_iff_distance ⟨0, 0, 1⟩ ⟨1, 0, 1⟩ (by decide) (by decide)

/-- Evaluation of `AABBCollider.intersection` on finite arguments. -/
theorem aabb_intersection_fin (a : AABBCollider) (x y rX rY : ℚ) :
    AABBCollider.intersection a (fin x) (fin y) (fin rX) (fin rY) =
      (if (rX + a.rX) - |x - a.x| ≤ 0 then none
       else if (rY + a.rY) - |y - a.y| ≤ 0 then none
       else if (rX + a.rX) - |x - a.x| ≤ (rY + a.rY) - |y - a.y| then
         some ⟨(fin (((rX + a.rX) - |x - a.x|) * qsign (x - a.x)), fin 0),
               (fin (qsign (x - a.x)), fin 0),
               (fin (a.x + a.rX * qsign (x - a.x)), fin y), none⟩
       else
         some ⟨(fin 0, fin (((rY + a.rY) - |y - a.y|) * qsign (y - a.y))),
               (fin 0, fin (qsign (y - a.y))),
               (fin x, fin (a.y + a.rY * qsign (y - a.y))), none⟩) := by
  simp only [AABBCollider.intersection, jsub_fin, jadd_fin, jabs_fin, jle_fin,
    jmul_fin, jsign_fin, decide_eq_true_eq]

/-- C6 (amended): `A.boxIntersection(B)` is `null` iff one of the per-axis
penetrations is nonpositive; when non-null the delta lies entirely on the
axis of smaller penetration (ties resolved to x): if the centres differ on
that axis the delta is that penetration times the centre-delta sign, so its
magnitude equals the penetration and translating `B` by it resolves that
axis's penetration exactly to zero; but if the centres coincide on the
resolution axis, `Math.sign(0) = 0` makes the returned delta zero and the
penetration is not resolved. -/
theorem aabb_box_intersection_mtv (A B : AABBCollider) :
    (AABBCollider.boxIntersection A B = none ↔ penX A B ≤ 0 ∨ penY A B ≤ 0) ∧
    (∀ h, AABBCollider.boxIntersection A B = some h → penX A B ≤ penY A B →
        h.delta.2 = fin 0 ∧ h.normal.2 = fin 0 ∧
        (B.x ≠ A.x → h.delta.1 = fin (penX A B * qsign (B.x - A.x)) ∧
          penX A (moveX B (penX A B * qsign (B.x - A.x))) = 0) ∧
        (B.x = A.x → h.delta.1 = fin 0)) ∧
    (∀ h, AABBCollider.boxIntersection A B = some h → penY A B < penX A B →
        h.delta.1 = fin 0 ∧ h.normal.1 = fin 0 ∧
        (B.y ≠ A.y → h.delta.2 = fin (penY A B * qsign (B.y - A.y)) ∧
          penY A (moveY B (penY A B * qsign (B.y - A.y))) = 0) ∧
        (B.y = A.y → h.delta.2 = fin 0)) := by
  have hx : (B.rX + A.rX) - |B.x - A.x| = penX A B := rfl
  have hy : (B.rY + A.rY) - |B.y - A.y| = penY A B := rfl
  rw [AABBCollider.boxIntersection, aabb_intersection_fin, hx, hy]
  split_ifs with h1 h2 h3
  · exact ⟨⟨fun _ => Or.inl h1, fun _ => rfl⟩,
      fun h hc => hc.elim, fun h hc => hc.elim⟩
  · exact ⟨⟨fun _ => Or.inr h2, fun _ => rfl⟩,
      fun h hc => hc.elim, fun h hc => hc.elim⟩
  · refine ⟨⟨fun hc => hc.elim,
      fun hor => hor.elim (fun hp => h1 hp) (fun hp => h2 hp)⟩,
      ?_, fun h hc hlt => absurd hlt (not_lt.mpr h3)⟩
    intro h hc hle
    injection hc with hc'
    subst hc'
    have hp : 0 < penX A B := lt_of_not_ge h1
    refine ⟨rfl, rfl, fun hne => ⟨rfl, ?_⟩, fun heq => ?_⟩
    · simp only [penX, moveX] at hp ⊢
      rcases lt_or_gt_of_ne (sub_ne_zero.mpr hne) with hlt | hlt
      · rw [qsign, if_pos hlt]
        rw [abs_of_neg hlt] at hp ⊢
        have hc0 : 0 < B.rX + A.rX := by linarith
        have harg : B.x + ((B.rX + A.rX) - -(B.x - A.x)) * (-1) - A.x =
            -(B.rX + A.rX) := by ring
        rw [harg, abs_neg, abs_of_pos hc0]
        ring
      · rw [qsign, if_neg (not_lt.mpr hlt.le), if_pos hlt]
        rw [abs_of_pos hlt] at hp ⊢
        have hc0 : 0 < B.rX + A.rX := by linarith
        have harg : B.x + ((B.rX + A.rX) - (B.x - A.x)) * 1 - A.x =
            B.rX + A.rX := by ring
        rw [harg, abs_of_pos hc0]
        ring
    · rw [heq]
      simp [qsign]
  · refine ⟨⟨fun hc => hc.elim,
      fun hor => hor.elim (fun hp => h1 hp) (fun hp => h2 hp)⟩,
      fun h hc hle => absurd hle h3, ?_⟩
    intro h hc hlt
    injection hc with hc'
    subst hc'
    have hp : 0 < penY A B := lt_of_not_ge h2
    refine ⟨rfl, rfl, fun hne => ⟨rfl, ?_⟩, fun heq => ?_⟩
    · simp only [penY, moveY] at hp ⊢
      rcases lt_or_gt_of_ne (sub_ne_zero.mpr hne) with hlty | hlty
      · rw [qsign, if_pos hlty]
        rw [abs_of_neg hlty] at hp ⊢
        have hc0 : 0 < B.rY + A.rY := by linarith
        have harg : B.y + ((B.rY + A.rY) - -(B.y - A.y)) * (-1) - A.y =
            -(B.rY + A.rY) := by ring
        rw [harg, abs_neg, abs_of_pos hc0]
        ring
      · rw [qsign, if_neg (not_lt.mpr hlty.le), if_pos hlty]
        rw [abs_of_pos hlty] at hp ⊢
        have hc0 : 0 < B.rY + A.rY := by linarith
        have harg : B.y + ((B.rY + A.rY) - (B.y - A.y)) * 1 - A.y =
            B.rY + A.rY := by ring
        rw [harg, abs_of_pos hc0]
        ring
    · rw [heq]
      simp [qsign]

/-- C6 (counterexample): for box A centred `(0,0)` with half-extents
`(1,1)` and box B centred `(0,0)` with half-extents `(1,2)`, the x
penetration is 2 (smaller than the y penetration 3) yet the returned delta
is `(0,0)` — its magnitude is not the penetration and translating by it
resolves nothing — because the centre delta on the resolution axis is zero
and `Math.sign(0) = 0`. -/
theorem aabb_box_intersection_mtv_ce :
    AABBCollider.boxIntersection ⟨0, 0, 1, 1⟩ ⟨0, 0, 1, 2⟩ =
      some ⟨(fin 0, fin 0), (fin 0, fin 0), (fin 0, fin 0), none⟩ ∧
    penX ⟨0, 0, 1, 1⟩ ⟨0, 0, 1, 2⟩ = 2 ∧ penY ⟨0, 0, 1, 1⟩ ⟨0, 0, 1, 2⟩ = 3 ∧
    jabs (fin 0) ≠ fin (penX ⟨0, 0, 1, 1⟩ ⟨0, 0, 1, 2⟩) := by
  refine ⟨by decide, by decide, by decide, by decide⟩

/-- C6 (witness): the amended theorem applied to boxes with centres
`(0,0)` and `(1/2,0)`, both with half-extents `(1,1)`: the x-axis hit has
delta `(3/2, 0)` and translating B by it zeroes the x penetration. -/
theorem aabb_box_intersection_mtv_witness :
    (⟨(fin (3/2), fin 0), (fin 1, fin 0), (fin 1, fin 0), none⟩ : Hit).delta.2 = fin 0 ∧
    (⟨(fin (3/2), fin 0), (fin 1, fin 0), (fin 1, fin 0), none⟩ : Hit).delta.1 =
      fin (penX ⟨0, 0, 1, 1⟩ ⟨1/2, 0, 1, 1⟩ *
        qsign ((⟨1/2, 0, 1, 1⟩ : AABBCollider).x - (⟨0, 0, 1, 1⟩ : AABBCollider).x)) ∧
    penX ⟨0, 0, 1, 1⟩ (moveX ⟨1/2, 0, 1, 1⟩ (penX ⟨0, 0, 1, 1⟩ ⟨1/2, 0, 1, 1⟩ *
      qsign ((⟨1/2, 0, 1, 1⟩ : AABBCollider).x - (⟨0, 0, 1, 1⟩ : AABBCollider).x))) = 0 := by
  have h := (aabb_box_intersection_mtv ⟨0, 0, 1, 1⟩ ⟨1/2, 0, 1, 1⟩).2.1
    (⟨(fin (3/2), fin 0), (fin 1, fin 0), (fin 1, fin 0), none⟩ : Hit) (by decide) (by decide)
  exact ⟨h.1, (h.2.2.1 (by decide)).1, (h.2.2.1 (by decide)).2⟩
